import Mathlib

/-!
Verification of the DataCompyDashboard comparison pipeline.

The repository's GUI callers (`src/utils/data_handler.py`, `src/app.py`,
`src/Deepseek.py`, `src/utils/sql_handler.py`) are embedded directly from
their source. The comparison engine itself is the external `datacompy`
library, which is not part of the repository's source tree; its behaviour
is modelled from the specification (Schema Comparator, Key Joiner, Cell
Comparator, Aggregator) and each such definition is marked
`Modelled from the spec:`.
-/

namespace DataCompy

/-- A cell value: tagged variant over the six kinds of the data model
(integer, float, string, boolean, date/time, null). Floats are modelled
as rationals. -/
inductive Value where
  | intV (n : Int)
  | floatV (q : ℚ)
  | strV (s : String)
  | boolV (b : Bool)
  | dateV (t : Int)
  | nullV
deriving DecidableEq, Repr

/-- A row: mapping from column name to value (association list). -/
abbrev Row := List (String × Value)

/-- A tabular dataset: ordered schema plus rows. -/
structure Dataset where
  schema : List String
  rows : List Row
deriving DecidableEq, Repr

/-- Fetch a cell from a row; a missing cell is a materialized null. -/
def rowLookup (r : Row) (c : String) : Value :=
  (r.lookup c).getD Value.nullV

/-- The key tuple of a row over the join columns. -/
def keyOf (js : List String) (r : Row) : List Value :=
  js.map (rowLookup r)

/-- Whether a row's key tuple contains a null component. -/
def nullKey (js : List String) (r : Row) : Bool :=
  decide (Value.nullV ∈ keyOf js r)

/-- Modelled from the spec: the Key Joiner's index of rows sharing a key
tuple, in original row order (datacompy performs this join; it is not in
the repository source). -/
def groupRows (js : List String) (rows : List Row) (k : List Value) : List Row :=
  rows.filter (fun r => decide (keyOf js r = k))

/-- Modelled from the spec: positional pairing of duplicate keys.
Walking the left dataset's rows in order (`seen` holds the rows already
processed), a row with non-null key `k` is matched to the `p`-th row of
the other side's group for `k`, where `p` is how many rows with key `k`
were already seen; overflow rows are unmatched. -/
def matchedPairsAux (js : List String) (brows : List Row) :
    List Row → List Row → List (Row × Row)
  | _, [] => []
  | seen, r :: rest =>
      let k := keyOf js r
      let p := seen.countP (fun s => decide (keyOf js s = k))
      if !nullKey js r && p < (groupRows js brows k).length then
        (r, (groupRows js brows k).getD p []) :: matchedPairsAux js brows (seen ++ [r]) rest
      else
        matchedPairsAux js brows (seen ++ [r]) rest

/-- Modelled from the spec: the matched row pairs of the Key Joiner. -/
def matchedPairs (js : List String) (arows brows : List Row) : List (Row × Row) :=
  matchedPairsAux js brows [] arows

/-- Modelled from the spec: rows of the first argument's side that are
not matched against the `other` side (null keys, absent keys, and
duplicate-group overflow). -/
def unmatchedRowsAux (js : List String) (other : List Row) :
    List Row → List Row → List Row
  | _, [] => []
  | seen, r :: rest =>
      let k := keyOf js r
      let p := seen.countP (fun s => decide (keyOf js s = k))
      if !nullKey js r && p < (groupRows js other k).length then
        unmatchedRowsAux js other (seen ++ [r]) rest
      else
        r :: unmatchedRowsAux js other (seen ++ [r]) rest

/-- Modelled from the spec: rows only in the base dataset. -/
def onlyInARows (js : List String) (arows brows : List Row) : List Row :=
  unmatchedRowsAux js brows [] arows

/-- Modelled from the spec: rows only in the compare dataset. -/
def onlyInBRows (js : List String) (arows brows : List Row) : List Row :=
  unmatchedRowsAux js arows [] brows

/-- Whether a value is numeric (integer or float). -/
def isNumeric : Value → Bool
  | .intV _ => true
  | .floatV _ => true
  | _ => false

/-- Numeric interpretation of a value. -/
def numVal : Value → ℚ
  | .intV n => (n : ℚ)
  | .floatV q => q
  | _ => 0

/-- Modelled from the spec: the Cell Comparator's tolerance- and
case-aware equality on two cell values (performed by datacompy, not in
the repository source). -/
def valuesEqual (absTol relTol : ℚ) (caseSensitive : Bool) (a b : Value) : Bool :=
  match a, b with
  | .nullV, .nullV => true
  | .nullV, _ => false
  | _, .nullV => false
  | a, b =>
    if isNumeric a && isNumeric b then
      decide (|numVal a - numVal b| ≤ absTol + relTol * max |numVal a| |numVal b|)
    else
      match a, b with
      | .strV s, .strV t => if caseSensitive then s == t else s.toLower == t.toLower
      | .boolV x, .boolV y => x == y
      | .dateV x, .dateV y => x == y
      | _, _ => false

/-- A cell-level mismatch record. -/
structure Mismatch where
  key_tuple : List Value
  column : String
  value_a : Value
  value_b : Value
deriving DecidableEq, Repr

/-- Modelled from the spec: the mismatch records one matched pair
contributes, one per compared column whose values disagree. -/
def mismatchesForPair (js : List String) (absTol relTol : ℚ) (cs : Bool)
    (cols : List String) (p : Row × Row) : List Mismatch :=
  cols.filterMap (fun c =>
    let a := rowLookup p.1 c
    let b := rowLookup p.2 c
    if valuesEqual absTol relTol cs a b then none
    else some ⟨keyOf js p.1, c, a, b⟩)

/-- Modelled from the spec: the full mismatch stream over all matched
pairs. -/
def mismatchList (js : List String) (absTol relTol : ℚ) (cs : Bool)
    (cols : List String) (arows brows : List Row) : List Mismatch :=
  (matchedPairs js arows brows).flatMap (mismatchesForPair js absTol relTol cs cols)

/-- Number of mismatch records charged to one column. -/
def mismatchCountCol (ms : List Mismatch) (c : String) : Nat :=
  ms.countP (fun m => m.column == c)

/-- Comparison configuration. -/
structure Config where
  join_columns : List String
  compare_columns : List String
  absolute_tolerance : ℚ
  relative_tolerance : ℚ
  case_sensitive : Bool
deriving DecidableEq, Repr

/-- Modelled from the spec: canonical form of a column name under the
case-sensitivity setting. -/
def canonName (caseSensitive : Bool) (s : String) : String :=
  if caseSensitive then s else s.toLower

/-- Modelled from the spec: the Schema Comparator's common columns.
Name comparison follows the case-sensitivity setting and the first
dataset's casing is kept as canonical. -/
def commonColumns (caseSensitive : Bool) (sa sb : List String) : List String :=
  sa.filter (fun a => (sb.map (canonName caseSensitive)).contains (canonName caseSensitive a))

/-- Modelled from the spec: the compare columns actually evaluated —
the requested ones intersected with `common`, defaulting to `common`
minus the join columns when none are requested. -/
def effectiveCompareCols (cfg : Config) (common : List String) : List String :=
  if cfg.compare_columns.isEmpty then
    common.filter (fun c =>
      !(cfg.join_columns.map (canonName cfg.case_sensitive)).contains
        (canonName cfg.case_sensitive c))
  else
    common.filter (fun c =>
      (cfg.compare_columns.map (canonName cfg.case_sensitive)).contains
        (canonName cfg.case_sensitive c))

/-- The comparison report. -/
structure Report where
  common_columns : List String
  matched_pairs : List (Row × Row)
  only_in_a : List Row
  only_in_b : List Row
  mismatches : List Mismatch
  overall_match_rate : ℚ
deriving DecidableEq, Repr

/-- `DataHandler._calculate_match_rate` (src/utils/data_handler.py
lines 79-90): matched rows over the larger dataset's row count, and 0
when that count is zero. -/
def calculate_match_rate (intersectCount totalBase totalCompare : Nat) : ℚ :=
  let total := max totalBase totalCompare
  if total = 0 then 0 else (intersectCount : ℚ) / (total : ℚ)

/-- Modelled from the spec: the comparison engine proper (datacompy):
Schema Comparator, Key Joiner, Cell Comparator and Aggregator folded
into one Report. -/
def compareCore (A B : Dataset) (cfg : Config) : Report :=
  let cs := cfg.case_sensitive
  let common := commonColumns cs A.schema B.schema
  let ecols := effectiveCompareCols cfg common
  let mp := matchedPairs cfg.join_columns A.rows B.rows
  ⟨common, mp,
   onlyInARows cfg.join_columns A.rows B.rows,
   onlyInBRows cfg.join_columns A.rows B.rows,
   mp.flatMap (mismatchesForPair cfg.join_columns cfg.absolute_tolerance
     cfg.relative_tolerance cs ecols),
   calculate_match_rate mp.length A.rows.length B.rows.length⟩

/-- Engine-level error kinds from the error taxonomy. -/
inductive EngineError where
  | configurationError (msg : String)
deriving DecidableEq, Repr

/-- The message carried by an engine error. -/
def EngineError.msg : EngineError → String
  | .configurationError m => m

/-- Whether `join_columns` is empty or none of the requested join
columns exist in the common schema after case normalization. -/
def joinColumnsInvalid (cfg : Config) (common : List String) : Bool :=
  cfg.join_columns.isEmpty ||
  !cfg.join_columns.any (fun j =>
    (common.map (canonName cfg.case_sensitive)).contains (canonName cfg.case_sensitive j))

/-- Modelled from the spec: the engine's validated entry point, raising
a ConfigurationError before any row scanning when the join columns are
unusable. -/
def compareEngine (A B : Dataset) (cfg : Config) : Except EngineError Report :=
  if joinColumnsInvalid cfg (commonColumns cfg.case_sensitive A.schema B.schema) then
    Except.error (EngineError.configurationError
      "join_columns is empty or not found in common columns")
  else
    Except.ok (compareCore A B cfg)

/-- Python-level error values observed by the GUI callers: the generic
`Exception` the handlers re-raise, alongside the engine's configuration
kind. -/
inductive PyError where
  | configurationError (msg : String)
  | exception (msg : String)
deriving DecidableEq, Repr

/-- Whether an `Except` result is a raised ConfigurationError. -/
def raisedConfigurationError {α : Type} : Except PyError α → Bool
  | .error (.configurationError _) => true
  | _ => false

/-- Values stored in the results dictionary built by
`DataHandler.run_comparison`; payloads irrelevant to the verified
claims are kept opaque. -/
inductive RVal where
  | strList (l : List String)
  | natV (n : Nat)
  | pairNat (a b : Nat)
  | ratV (q : ℚ)
  | otherV (tag : String)
deriving DecidableEq, Repr

/-- Python dict insertion: a repeated key overwrites the earlier value
in place; a new key is appended. -/
def pyInsert (d : List (String × RVal)) (kv : String × RVal) : List (String × RVal) :=
  if d.any (fun e => e.1 == kv.1) then
    d.map (fun e => if e.1 == kv.1 then (e.1, kv.2) else e)
  else
    d ++ [kv]

/-- A Python dict literal: entries inserted in textual order. -/
def pyDict (entries : List (String × RVal)) : List (String × RVal) :=
  entries.foldl pyInsert []

/-- The entries of the results dict literal in
`DataHandler.run_comparison` (src/utils/data_handler.py lines 36-72),
in source order; note the two `compare_columns` assignments. -/
def resultsEntries (A B : Dataset) (rep : Report)
    (join_columns : List String) (compare_columns : Option (List String)) :
    List (String × RVal) :=
  [("comparison_obj", RVal.otherV "comparison_obj"),
   ("base_shape", RVal.pairNat A.rows.length A.schema.length),
   ("compare_shape", RVal.pairNat B.rows.length B.schema.length),
   ("base_columns", RVal.strList A.schema),
   ("compare_columns", RVal.strList B.schema),
   ("join_columns", RVal.strList join_columns),
   ("compare_columns", RVal.strList (compare_columns.getD [])),
   ("intersect_rows", RVal.natV rep.matched_pairs.length),
   ("base_only_rows", RVal.natV rep.only_in_a.length),
   ("compare_only_rows", RVal.natV rep.only_in_b.length),
   ("total_rows_base", RVal.natV A.rows.length),
   ("total_rows_compare", RVal.natV B.rows.length),
   ("match_rate", RVal.ratV (calculate_match_rate rep.matched_pairs.length
      A.rows.length B.rows.length)),
   ("column_diffs", RVal.otherV "column_diffs"),
   ("summary_report", RVal.otherV "summary_report"),
   ("columns_compared", RVal.strList rep.common_columns),
   ("columns_base_only", RVal.otherV "columns_base_only"),
   ("columns_compare_only", RVal.otherV "columns_compare_only"),
   ("dtype_mismatches", RVal.otherV "dtype_mismatches"),
   ("base_memory_usage", RVal.otherV "base_memory_usage"),
   ("compare_memory_usage", RVal.otherV "compare_memory_usage")]

/-- The configuration `DataHandler.run_comparison` hands to the engine:
it passes only the join columns, so tolerances default to 0 and names
are compared case-sensitively. -/
def dhConfig (join_columns : List String) (compare_columns : Option (List String)) : Config :=
  ⟨join_columns, compare_columns.getD [], 0, 0, true⟩

/-- `DataHandler.run_comparison` (src/utils/data_handler.py lines
18-77): run the engine, build the results dict, and re-raise every
failure as a generic `Exception` prefixed `Comparison failed: `. -/
def run_comparison (A B : Dataset) (join_columns : List String)
    (compare_columns : Option (List String)) :
    Except PyError (List (String × RVal)) :=
  match compareEngine A B (dhConfig join_columns compare_columns) with
  | .error e => .error (.exception ("Comparison failed: " ++ e.msg))
  | .ok rep => .ok (pyDict (resultsEntries A B rep join_columns compare_columns))

/-- Output of the Dash modal callback in src/app.py: no update, a
warning alert, results, or an error alert. -/
inductive ModalOut where
  | noUpdate
  | warnAlert (msg : String)
  | results (d : List (String × RVal))
  | errorAlert (msg : String)
deriving DecidableEq, Repr

/-- The message of a Python error value, as `str(e)` renders it. -/
def PyError.msg : PyError → String
  | .configurationError m => m
  | .exception m => m

/-- `run_comparison_from_modal` (src/app.py lines 830-883): guard on
clicks and loaded data, return a warning alert when no join column is
selected, otherwise call `DataHandler.run_comparison` and turn any
exception into an error alert. -/
def run_comparison_from_modal (n_clicks : Nat)
    (base_data compare_data : Option Dataset)
    (join_cols : List String) (compare_cols : List String) : ModalOut :=
  if n_clicks = 0 ∨ base_data = none ∨ compare_data = none then .noUpdate
  else
    match base_data, compare_data with
    | some A, some B =>
        if join_cols.isEmpty then
          .warnAlert "Please select at least one join column"
        else
          match run_comparison A B join_cols (some compare_cols) with
          | .ok d => .results d
          | .error e => .errorAlert ("Comparison Error: " ++ e.msg)
    | _, _ => .noUpdate

/-- `DataInputWindow.run_comparison_in_thread` (src/Deepseek.py lines
796-809): invoke the engine with `abs_tol` from the GUI tolerance,
`rel_tol` hardcoded to 0, and column-name case folding driven by the
case-sensitive checkbox. -/
def run_comparison_in_thread (df1 df2 : Dataset)
    (join_cols compare_cols : List String) (tolerance : ℚ)
    (case_sensitive : Bool) : Report :=
  compareCore df1 df2 ⟨join_cols, compare_cols, tolerance, 0, case_sensitive⟩

/-- `SQLHandler.execute_query` (src/utils/sql_handler.py lines 75-108):
given the rows the SQL query produced, raise when the query text is
missing or the result is empty, wrapping every failure as
`Query execution failed: `; otherwise return the rows. -/
def execute_query (query : String) (queryResult : List Row) :
    Except PyError (List Row) :=
  if query = "" then
    .error (.exception "Query execution failed: Query is required")
  else if queryResult.isEmpty then
    .error (.exception "Query execution failed: Query returned no results")
  else
    .ok queryResult

/-! Concrete datasets and configurations used as evaluation instances. -/

/-- A row with key 1 and value 10. -/
def rowA1 : Row := [("id", Value.intV 1), ("val", Value.floatV 10)]

/-- A second row with the same key 1 and value 20. -/
def rowA2 : Row := [("id", Value.intV 1), ("val", Value.floatV 20)]

/-- A row with key 1 and value 30. -/
def rowB1 : Row := [("id", Value.intV 1), ("val", Value.floatV 30)]

/-- A row with key 2. -/
def rowK2 : Row := [("id", Value.intV 2), ("val", Value.floatV 7)]

/-- A row whose join key is null. -/
def rowNull : Row := [("id", Value.nullV)]

/-- A one-row dataset whose join key is null. -/
def dsNull : Dataset := ⟨["id"], [rowNull]⟩

/-- Configuration joining on `id` and comparing `id`, zero tolerances. -/
def cfgId : Config := ⟨["id"], ["id"], 0, 0, true⟩

/-- Base dataset for the tolerance counterexample: key 1, value 10. -/
def dfBase : Dataset := ⟨["id", "val"], [rowA1]⟩

/-- A row with key 1 and value 15. -/
def rowC15 : Row := [("id", Value.intV 1), ("val", Value.floatV 15)]

/-- Compare dataset for the tolerance counterexample: key 1, value 15. -/
def dfCmp : Dataset := ⟨["id", "val"], [rowC15]⟩

/-- A comparison configuration with absolute tolerance 0 and relative
tolerance 1, the instance on which the claimed tolerance formula and the
code diverge. -/
def cfgRel : Config := ⟨["id"], ["val"], 0, 1, true⟩

/-- Two-row dataset with distinct keys 1 and 2. -/
def dsTwo : Dataset := ⟨["id", "val"], [rowA1, rowK2]⟩

/-- One-row sub-dataset with key 1 only. -/
def dsOne : Dataset := ⟨["id", "val"], [rowA1]⟩

/-- Configuration with widened tolerances 1 and 1. -/
def cfgWide : Config := ⟨["id"], ["id"], 1, 1, true⟩

/-- Case-insensitive configuration. -/
def cfgCaseless : Config := ⟨["id"], [], 0, 0, false⟩

/-- Dataset whose only column is spelled `Name`. -/
def dsName : Dataset := ⟨["Name"], []⟩

/-- Dataset whose only column is spelled `NAME`. -/
def dsUpper : Dataset := ⟨["NAME"], []⟩

/-- Self-comparison configuration whose compare columns are all common
columns of `dsTwo` against itself. -/
def cfgSelf : Config := ⟨["id"], ["id", "val"], 0, 0, true⟩

/-! Lemma layer. -/

theorem nullKey_eq_of_keyOf_eq (js : List String) (r s : Row)
    (h : keyOf js r = keyOf js s) : nullKey js r = nullKey js s := by
  simp [nullKey, h]

theorem mem_groupRows (js : List String) (rows : List Row) (k : List Value) (r : Row)
    (h : r ∈ groupRows js rows k) : r ∈ rows ∧ keyOf js r = k := by
  have := List.mem_filter.mp h
  exact ⟨this.1, of_decide_eq_true this.2⟩

theorem nullKey_false_of_mem_matchedPairsAux (js : List String) (brows : List Row)
    (p : Row × Row) :
    ∀ seen rest, p ∈ matchedPairsAux js brows seen rest →
      nullKey js p.1 = false ∧ nullKey js p.2 = false := by
  intro seen rest
  induction rest generalizing seen with
  | nil => intro h; simp [matchedPairsAux] at h
  | cons r rest ih =>
    intro h
    rw [matchedPairsAux] at h
    split at h
    next hc =>
      rw [Bool.and_eq_true] at hc
      have hnn : nullKey js r = false := by
        have := hc.1; rwa [Bool.not_eq_true'] at this
      have hlt : (seen.countP (fun s => decide (keyOf js s = keyOf js r))) <
          (groupRows js brows (keyOf js r)).length :=
        of_decide_eq_true hc.2
      rcases List.mem_cons.mp h with h1 | h2
      · subst h1
        refine ⟨hnn, ?_⟩
        have hmem : (groupRows js brows (keyOf js r)).getD
            (seen.countP (fun s => decide (keyOf js s = keyOf js r))) [] ∈
            groupRows js brows (keyOf js r) := by
          rw [List.getD_eq_getElem _ _ hlt]
          exact List.getElem_mem _
        have hkey := (mem_groupRows _ _ _ _ hmem).2
        have heq := nullKey_eq_of_keyOf_eq js _ r hkey
        rw [heq]
        exact hnn
      · exact ih _ h2
    next => exact ih _ h

theorem mem_unmatchedRowsAux_of_nullKey (js : List String) (other : List Row) (r : Row)
    (hr : nullKey js r = true) :
    ∀ seen rest, r ∈ rest → r ∈ unmatchedRowsAux js other seen rest := by
  intro seen rest
  induction rest generalizing seen with
  | nil => intro h; cases h
  | cons x rest ih =>
    intro h
    rw [unmatchedRowsAux]
    rcases List.mem_cons.mp h with h1 | h2
    · subst h1
      split
      next hc =>
        rw [Bool.and_eq_true] at hc
        have := hc.1
        rw [Bool.not_eq_true', hr] at this
        cases this
      next => exact List.mem_cons_self _ _
    · split
      · exact ih _ h2
      · exact List.mem_cons_of_mem _ (ih _ h2)

theorem matchedPairsAux_length_le (js : List String) (brows : List Row) :
    ∀ seen rest, (matchedPairsAux js brows seen rest).length ≤ rest.length := by
  intro seen rest
  induction rest generalizing seen with
  | nil => simp [matchedPairsAux]
  | cons r rest ih =>
    rw [matchedPairsAux]
    split
    · simpa using Nat.succ_le_succ (ih _)
    · exact Nat.le_succ_of_le (ih _)

theorem max_abs_nonneg (u v : ℚ) : 0 ≤ max |u| |v| :=
  le_trans (abs_nonneg u) (le_max_left _ _)

theorem valuesEqual_refl (absTol relTol : ℚ) (cs : Bool) (a : Value)
    (h1 : 0 ≤ absTol) (h2 : 0 ≤ relTol) : valuesEqual absTol relTol cs a a = true := by
  have hnum : ∀ u : ℚ, |u - u| ≤ absTol + relTol * max |u| |u| := by
    intro u
    rw [sub_self, abs_zero]
    exact add_nonneg h1 (mul_nonneg h2 (max_abs_nonneg u u))
  cases a with
  | intV n => simpa [valuesEqual, isNumeric, numVal] using hnum (n : ℚ)
  | floatV q => simpa [valuesEqual, isNumeric, numVal] using hnum q
  | strV s => cases cs <;> simp [valuesEqual, isNumeric]
  | boolV b => simp [valuesEqual, isNumeric]
  | dateV t => simp [valuesEqual, isNumeric]
  | nullV => rfl

theorem valuesEqual_mono (a1 r1 a2 r2 : ℚ) (cs : Bool) (x y : Value)
    (ha : a1 ≤ a2) (hr : r1 ≤ r2) (h : valuesEqual a1 r1 cs x y = true) :
    valuesEqual a2 r2 cs x y = true := by
  have key : ∀ u v : ℚ, |u - v| ≤ a1 + r1 * max |u| |v| →
      |u - v| ≤ a2 + r2 * max |u| |v| := by
    intro u v h0
    exact h0.trans (add_le_add ha (mul_le_mul_of_nonneg_right hr (max_abs_nonneg u v)))
  cases x <;> cases y <;>
    simp only [valuesEqual, isNumeric, numVal, Bool.and_self, Bool.and_false,
      Bool.false_and, Bool.and_true, Bool.true_and, if_true, if_false,
      decide_eq_true_eq] at h ⊢ <;>
    first
    | exact h
    | exact key _ _ h

/-! Claim theorems. -/

/-- C1: the overall match rate returned by the comparison equals
matched_count / max(total_rows_a, total_rows_b), is in [0, 1], and is 0
when both datasets are empty. -/
theorem match_rate_spec (A B : Dataset) (cfg : Config) :
    ((compareCore A B cfg).overall_match_rate =
      if max A.rows.length B.rows.length = 0 then 0
      else ((compareCore A B cfg).matched_pairs.length : ℚ) /
        ((max A.rows.length B.rows.length : ℕ) : ℚ))
    ∧ 0 ≤ (compareCore A B cfg).overall_match_rate
    ∧ (compareCore A B cfg).overall_match_rate ≤ 1
    ∧ (A.rows = [] → B.rows = [] → (compareCore A B cfg).overall_match_rate = 0) := by
  have hform : (compareCore A B cfg).overall_match_rate =
      if max A.rows.length B.rows.length = 0 then 0
      else ((compareCore A B cfg).matched_pairs.length : ℚ) /
        ((max A.rows.length B.rows.length : ℕ) : ℚ) := rfl
  have hcnt : (compareCore A B cfg).matched_pairs.length ≤
      max A.rows.length B.rows.length :=
    le_trans (matchedPairsAux_length_le cfg.join_columns B.rows [] A.rows)
      (le_max_left _ _)
  refine ⟨hform, ?_, ?_, ?_⟩
  · rw [hform]
    split
    · exact le_refl 0
    · exact div_nonneg (Nat.cast_nonneg _) (Nat.cast_nonneg _)
  · rw [hform]
    split
    next => exact zero_le_one
    next h =>
      rw [div_le_one (by exact_mod_cast Nat.pos_of_ne_zero h)]
      exact_mod_cast hcnt
  · intro ha hb
    rw [hform, ha, hb]
    simp

/-- C1 witness: both datasets empty gives match rate 0. -/
theorem match_rate_spec_witness :
    (compareCore (⟨["id"], []⟩ : Dataset) (⟨["id"], []⟩ : Dataset)
      cfgId).overall_match_rate = 0 :=
  (match_rate_spec ⟨["id"], []⟩ ⟨["id"], []⟩ cfgId).2.2.2 rfl rfl

/-- C3: a row whose key tuple contains a null component is never a
component of any matched pair, and it appears in only_in_a (when it is a
row of A) and in only_in_b (when it is a row of B). -/
theorem null_key_rows_unmatched (A B : Dataset) (cfg : Config) (r : Row)
    (hr : nullKey cfg.join_columns r = true) :
    (∀ p ∈ (compareCore A B cfg).matched_pairs, p.1 ≠ r ∧ p.2 ≠ r)
    ∧ (r ∈ A.rows → r ∈ (compareCore A B cfg).only_in_a)
    ∧ (r ∈ B.rows → r ∈ (compareCore A B cfg).only_in_b) := by
  refine ⟨?_, ?_, ?_⟩
  · intro p hp
    have hp' : p ∈ matchedPairsAux cfg.join_columns B.rows [] A.rows := hp
    have hnull := nullKey_false_of_mem_matchedPairsAux cfg.join_columns B.rows p [] A.rows hp'
    constructor
    · intro he
      rw [he, hr] at hnull
      cases hnull.1
    · intro he
      rw [he, hr] at hnull
      cases hnull.2
  · intro hmem
    exact mem_unmatchedRowsAux_of_nullKey cfg.join_columns B.rows r hr [] A.rows hmem
  · intro hmem
    exact mem_unmatchedRowsAux_of_nullKey cfg.join_columns A.rows r hr [] B.rows hmem

/-- C3 witness: the null-keyed row of `dsNull` is unmatched and lands in
both unique-row collections of a self comparison. -/
theorem null_key_rows_unmatched_witness :
    (∀ p ∈ (compareCore dsNull dsNull cfgId).matched_pairs, p.1 ≠ rowNull ∧ p.2 ≠ rowNull)
    ∧ (rowNull ∈ dsNull.rows → rowNull ∈ (compareCore dsNull dsNull cfgId).only_in_a)
    ∧ (rowNull ∈ dsNull.rows → rowNull ∈ (compareCore dsNull dsNull cfgId).only_in_b) :=
  null_key_rows_unmatched dsNull dsNull cfgId rowNull (by decide)

/-- C2 counterexample: with empty join columns the Dash callback returns
a warning alert and `DataHandler.run_comparison` raises a generic
`Exception`, not a ConfigurationError. -/
theorem config_error_counterexample :
    raisedConfigurationError (run_comparison dsNull dsNull [] (some [])) = false
    ∧ run_comparison dsNull dsNull [] (some []) =
        Except.error (PyError.exception
          "Comparison failed: join_columns is empty or not found in common columns")
    ∧ run_comparison_from_modal 1 (some dsNull) (some dsNull) [] [] =
        ModalOut.warnAlert "Please select at least one join column" :=
  ⟨rfl, rfl, rfl⟩

/-- C2 (amended): with empty join columns the modal callback returns a
warning alert and no report; when invalid join columns reach
`DataHandler.run_comparison`, the engine's configuration failure is
re-raised as a generic `Exception` prefixed `Comparison failed: `, and
no report is produced. -/
theorem join_columns_invalid_behavior (A B : Dataset) (js : List String)
    (cc : Option (List String)) (ccl : List String) (n : Nat)
    (h : joinColumnsInvalid (dhConfig js cc)
      (commonColumns true A.schema B.schema) = true) :
    run_comparison A B js cc =
      Except.error (PyError.exception
        "Comparison failed: join_columns is empty or not found in common columns")
    ∧ (js = [] → n ≠ 0 →
        run_comparison_from_modal n (some A) (some B) js ccl =
          ModalOut.warnAlert "Please select at least one join column") := by
  constructor
  · have h' : joinColumnsInvalid (dhConfig js cc)
        (commonColumns (dhConfig js cc).case_sensitive A.schema B.schema) = true := h
    simp [run_comparison, compareEngine, h', EngineError.msg]
  · intro hjs hn
    subst hjs
    simp [run_comparison_from_modal, hn]

/-- C2 (amended) witness at empty join columns. -/
theorem join_columns_invalid_behavior_witness :
    run_comparison dsTwo dsOne [] none =
      Except.error (PyError.exception
        "Comparison failed: join_columns is empty or not found in common columns")
    ∧ run_comparison_from_modal 1 (some dsTwo) (some dsOne) [] [] =
        ModalOut.warnAlert "Please select at least one join column" :=
  ⟨(join_columns_invalid_behavior dsTwo dsOne [] none [] 1 (by decide)).1,
   (join_columns_invalid_behavior dsTwo dsOne [] none [] 1 (by decide)).2 rfl
     (by decide)⟩

/-- C10: `SQLHandler.execute_query` only ever returns a non-empty row
set; a query returning zero rows raises an exception, so the SQL loading
path can never produce an empty dataset. -/
theorem sql_nonempty_guarantee (q : String) (res df : List Row) :
    (execute_query q res = Except.ok df → df ≠ [])
    ∧ (q ≠ "" → execute_query q [] =
        Except.error (PyError.exception
          "Query execution failed: Query returned no results")) := by
  constructor
  · intro h
    by_cases h1 : q = ""
    · simp [execute_query, h1] at h
    · by_cases h2 : res.isEmpty
      · simp [execute_query, h1, h2] at h
      · simp [execute_query, h1, h2] at h
        subst h
        intro hnil
        exact h2 (by simp [hnil])
  · intro hq
    simp [execute_query, hq]

/-- C5: with case_sensitive false, common-column identification compares
lowercased names from both schemas, and every common column in the
report carries the base dataset's original casing. -/
theorem case_insensitive_common_columns (A B : Dataset) (cfg : Config) (c : String)
    (hcs : cfg.case_sensitive = false) :
    (compareCore A B cfg).common_columns = commonColumns false A.schema B.schema
    ∧ (c ∈ (compareCore A B cfg).common_columns ↔
        c ∈ A.schema ∧ c.toLower ∈ B.schema.map String.toLower) := by
  have h1 : (compareCore A B cfg).common_columns =
      commonColumns cfg.case_sensitive A.schema B.schema := rfl
  rw [h1, hcs]
  refine ⟨rfl, ?_⟩
  simp [commonColumns, canonName, List.mem_filter]

/-- C5 witness: `Name` and `NAME` are identified case-insensitively and
reported with the base spelling `Name`. -/
theorem case_insensitive_common_columns_witness :
    (compareCore dsName dsUpper cfgCaseless).common_columns =
      commonColumns false dsName.schema dsUpper.schema
    ∧ ("Name" ∈ (compareCore dsName dsUpper cfgCaseless).common_columns ↔
        "Name" ∈ dsName.schema ∧
          "Name".toLower ∈ dsUpper.schema.map String.toLower) :=
  case_insensitive_common_columns dsName dsUpper cfgCaseless "Name" rfl

/-- Counting a predicate over a flat-mapped list is bounded by the
pointwise bounds. -/
theorem countP_flatMap_le {α β : Type} (f g : α → List β) (p q : β → Bool)
    (l : List α) (h : ∀ x ∈ l, (f x).countP p ≤ (g x).countP q) :
    (l.flatMap f).countP p ≤ (l.flatMap g).countP q := by
  induction l with
  | nil => simp
  | cons x xs ih =>
    simp only [List.flatMap_cons, List.countP_append]
    exact Nat.add_le_add (h x (List.mem_cons_self _ _))
      (ih (fun y hy => h y (List.mem_cons_of_mem _ hy)))

/-- Raising the tolerances cannot add mismatch records for a column
within one matched pair. -/
theorem mismatchesForPair_countP_mono (js : List String) (a1 r1 a2 r2 : ℚ)
    (cs : Bool) (cols : List String) (pr : Row × Row) (c : String)
    (ha : a1 ≤ a2) (hr : r1 ≤ r2) :
    (mismatchesForPair js a2 r2 cs cols pr).countP (fun m => m.column == c) ≤
    (mismatchesForPair js a1 r1 cs cols pr).countP (fun m => m.column == c) := by
  induction cols with
  | nil => simp [mismatchesForPair]
  | cons c0 rest ih =>
    simp only [mismatchesForPair, List.filterMap_cons] at ih ⊢
    cases h1 : valuesEqual a1 r1 cs (rowLookup pr.1 c0) (rowLookup pr.2 c0) with
    | true =>
      have h2 := valuesEqual_mono a1 r1 a2 r2 cs _ _ ha hr h1
      rw [h2]
      simpa using ih
    | false =>
      cases h2 : valuesEqual a2 r2 cs (rowLookup pr.1 c0) (rowLookup pr.2 c0) with
      | true =>
        simp [List.countP_cons]
        exact le_trans ih (Nat.le_add_right _ _)
      | false =>
        simp [List.countP_cons]
        exact ih

/-- C7: increasing absolute_tolerance or relative_tolerance (all other
configuration fields unchanged) never increases any column's mismatch
count. -/
theorem tolerance_monotonicity (A B : Dataset) (cfg cfg' : Config) (c : String)
    (hj : cfg'.join_columns = cfg.join_columns)
    (hc : cfg'.compare_columns = cfg.compare_columns)
    (hs : cfg'.case_sensitive = cfg.case_sensitive)
    (ha : cfg.absolute_tolerance ≤ cfg'.absolute_tolerance)
    (hr : cfg.relative_tolerance ≤ cfg'.relative_tolerance) :
    mismatchCountCol (compareCore A B cfg').mismatches c ≤
    mismatchCountCol (compareCore A B cfg).mismatches c := by
  simp only [compareCore, mismatchCountCol, effectiveCompareCols, matchedPairs,
    hj, hc, hs]
  exact countP_flatMap_le _ _ _ _ _
    (fun pr _ => mismatchesForPair_countP_mono _ _ _ _ _ _ _ pr c ha hr)

/-- C7 witness at zero versus unit tolerances. -/
theorem tolerance_monotonicity_witness :
    mismatchCountCol (compareCore dfBase dfCmp cfgWide).mismatches "val" ≤
    mismatchCountCol (compareCore dfBase dfCmp cfgId).mismatches "val" := by
  have h01 : (0 : ℚ) ≤ 1 := by norm_num
  exact tolerance_monotonicity dfBase dfCmp cfgId cfgWide "val" rfl rfl rfl h01 h01

/-- `List.lookup` on a cons cell, stated with an if-then-else. -/
theorem lookup_cons_ite {β : Type} (a k : String) (b : β) (es : List (String × β)) :
    List.lookup a ((k, b) :: es) = if a == k then some b else List.lookup a es := by
  rw [List.lookup_cons]
  cases h : a == k <;> simp [h]

/-- Replacing the value of key `k` does not change lookups of other
keys. -/
theorem lookup_pyInsert_map_ne (k c : String) (v : RVal)
    (hck : (c == k) = false) :
    ∀ d : List (String × RVal),
      (d.map (fun e => if e.1 == k then (e.1, v) else e)).lookup c = d.lookup c := by
  have hck' : c ≠ k := beq_eq_false_iff_ne.mp hck
  intro d
  induction d with
  | nil => rfl
  | cons e rest ih =>
    obtain ⟨a, w⟩ := e
    by_cases hek : a = k
    · have hca : c ≠ a := fun h => hck' (h.trans hek)
      simpa [lookup_cons_ite, hek, hca, hck'] using ih
    · by_cases hca : c = a
      · simp [lookup_cons_ite, hek, hca]
      · simpa [lookup_cons_ite, hek, hca] using ih

/-- Replacing the value of key `k` makes lookups of `k` return the new
value whenever `k` occurs. -/
theorem lookup_pyInsert_map_eq (k : String) (v : RVal) :
    ∀ d : List (String × RVal), d.any (fun e => e.1 == k) = true →
      (d.map (fun e => if e.1 == k then (e.1, v) else e)).lookup k = some v := by
  intro d
  induction d with
  | nil => intro h; cases h
  | cons e rest ih =>
    intro h
    obtain ⟨a, w⟩ := e
    by_cases hek : a = k
    · simp [lookup_cons_ite, hek]
    · have h' : rest.any (fun e => e.1 == k) = true := by
        simp only [List.any_cons, Bool.or_eq_true] at h
        rcases h with h | h
        · rw [beq_iff_eq] at h
          exact absurd h hek
        · exact h
      have hka : k ≠ a := fun he => hek he.symm
      simpa [lookup_cons_ite, hek, hka] using ih h'


/-- A key absent from an association list looks up to `none`. -/
theorem lookup_eq_none_of_not_any (k : String) :
    ∀ d : List (String × RVal), d.any (fun e => e.1 == k) = false →
      d.lookup k = none := by
  intro d
  induction d with
  | nil => intro _; rfl
  | cons e rest ih =>
    intro h
    obtain ⟨a, w⟩ := e
    simp only [List.any_cons, Bool.or_eq_false_iff] at h
    have hka : k ≠ a := by
      intro he
      rw [he] at h
      rcases h with ⟨h1, _⟩
      simp at h1
    simpa [lookup_cons_ite, hka] using ih h.2

/-- Lookup after a Python dict insertion: the inserted key now maps to
the inserted value, all other keys are unchanged. -/
theorem pyInsert_lookup (d : List (String × RVal)) (k : String) (v : RVal)
    (c : String) :
    (pyInsert d (k, v)).lookup c = if c == k then some v else d.lookup c := by
  unfold pyInsert
  by_cases hany : d.any (fun e => e.1 == (k, v).1) = true
  · rw [if_pos hany]
    cases hck : c == k with
    | true =>
      rw [beq_iff_eq] at hck
      subst hck
      simp only [if_pos rfl]
      rw [if_pos (by simp)]
      exact lookup_pyInsert_map_eq c v d hany
    | false =>
      rw [if_neg (by simp [hck])]
      exact lookup_pyInsert_map_ne k c v hck d
  · simp only [Bool.not_eq_true] at hany
    rw [if_neg (by simp [hany])]
    cases hck : c == k with
    | true =>
      rw [beq_iff_eq] at hck
      subst hck
      rw [if_pos (by simp)]
      rw [List.lookup_append, lookup_eq_none_of_not_any c d hany]
      simp [List.lookup]
    | false =>
      rw [if_neg (by simp [hck])]
      rw [List.lookup_append]
      cases hd : d.lookup c with
      | some w => rfl
      | none => simp [List.lookup, hck]

/-- C9: the results dictionary returned by `DataHandler.run_comparison`
maps `compare_columns` to the caller-supplied compare columns (empty
list when None or empty), never to the compare dataset's column list:
the literal's second assignment of the key wins. -/
theorem compare_columns_key_overwrite (A B : Dataset) (js : List String)
    (cc : Option (List String)) (d : List (String × RVal))
    (h : run_comparison A B js cc = Except.ok d) :
    d.lookup "compare_columns" = some (RVal.strList (cc.getD [])) := by
  unfold run_comparison at h
  cases he : compareEngine A B (dhConfig js cc) with
  | error e => rw [he] at h; simp at h
  | ok rep =>
    rw [he] at h
    simp only [Except.ok.injEq] at h
    subst h
    simp only [pyDict, resultsEntries, List.foldl_cons, List.foldl_nil]
    simp [pyInsert_lookup]

/-- C9 witness: a successful run at concrete inputs returns the
caller-supplied compare columns under the key. -/
theorem compare_columns_key_overwrite_witness :
    (pyDict (resultsEntries dsOne dsOne
        (compareCore dsOne dsOne (dhConfig ["id"] (some ["id"])))
        ["id"] (some ["id"]))).lookup "compare_columns" =
      some (RVal.strList ["id"]) :=
  compare_columns_key_overwrite dsOne dsOne ["id"] (some ["id"]) _ rfl

/-- C10 witness: a one-row result is returned as-is, an empty result
raises. -/
theorem sql_nonempty_guarantee_witness :
    ([[("x", Value.intV 1)]] : List Row) ≠ []
    ∧ execute_query "SELECT 1" [] =
        Except.error (PyError.exception
          "Query execution failed: Query returned no results") :=
  ⟨(sql_nonempty_guarantee "SELECT 1" [[("x", Value.intV 1)]]
      [[("x", Value.intV 1)]]).1 rfl,
   (sql_nonempty_guarantee "SELECT 1" [] []).2 (by decide)⟩

/-- C6: with duplicate key rows r1, r2 in A (indices 0 and 1) and a
single row r3 with the same key in B, the comparison always pairs r1
with r3 and sends r2 to only_in_a. -/
theorem duplicate_key_determinism (sa sb : List String) (cfg : Config)
    (r1 r2 r3 : Row)
    (h1 : nullKey cfg.join_columns r1 = false)
    (h2 : keyOf cfg.join_columns r2 = keyOf cfg.join_columns r1)
    (h3 : keyOf cfg.join_columns r3 = keyOf cfg.join_columns r1) :
    (compareCore ⟨sa, [r1, r2]⟩ ⟨sb, [r3]⟩ cfg).matched_pairs = [(r1, r3)]
    ∧ (compareCore ⟨sa, [r1, r2]⟩ ⟨sb, [r3]⟩ cfg).only_in_a = [r2]
    ∧ (compareCore ⟨sa, [r1, r2]⟩ ⟨sb, [r3]⟩ cfg).only_in_b = [] := by
  have h1' : Value.nullV ∉ keyOf cfg.join_columns r1 := by
    simpa [nullKey] using h1
  refine ⟨?_, ?_, ?_⟩
  · show matchedPairsAux cfg.join_columns [r3] [] [r1, r2] = [(r1, r3)]
    simp [matchedPairsAux, groupRows, h1, h2, h3, List.countP_cons]
  · show unmatchedRowsAux cfg.join_columns [r3] [] [r1, r2] = [r2]
    simp [unmatchedRowsAux, groupRows, h1, h2, h3, List.countP_cons]
  · show unmatchedRowsAux cfg.join_columns [r1, r2] [] [r3] = []
    simp [unmatchedRowsAux, groupRows, nullKey, h1', h2, h3, List.countP_cons]

/-- C6 witness at concrete rows with duplicated key 1. -/
theorem duplicate_key_determinism_witness :
    (compareCore ⟨["id", "val"], [rowA1, rowA2]⟩ ⟨["id", "val"], [rowB1]⟩
        cfgId).matched_pairs = [(rowA1, rowB1)]
    ∧ (compareCore ⟨["id", "val"], [rowA1, rowA2]⟩ ⟨["id", "val"], [rowB1]⟩
        cfgId).only_in_a = [rowA2]
    ∧ (compareCore ⟨["id", "val"], [rowA1, rowA2]⟩ ⟨["id", "val"], [rowB1]⟩
        cfgId).only_in_b = [] :=
  duplicate_key_determinism ["id", "val"] ["id", "val"] cfgId rowA1 rowA2 rowB1
    (by decide) (by decide) (by decide)

/-- Under pairwise-distinct keys, the group of a member row's key is
exactly that row. -/
theorem groupRows_self_singleton (js : List String) :
    ∀ rows : List Row,
      rows.Pairwise (fun r s => keyOf js r ≠ keyOf js s) →
      ∀ r ∈ rows, groupRows js rows (keyOf js r) = [r] := by
  intro rows
  induction rows with
  | nil => intro _ r hr; cases hr
  | cons x rest ih =>
    intro hnd r hr
    rw [List.pairwise_cons] at hnd
    rcases List.mem_cons.mp hr with rfl | hr'
    · have hrest : rest.filter (fun t => decide (keyOf js t = keyOf js r)) = [] := by
        rw [List.filter_eq_nil_iff]
        intro t ht
        simp [(hnd.1 t ht).symm]
      simp only [groupRows, List.filter_cons]
      rw [if_pos (by simp)]
      simpa [groupRows] using hrest
    · have hx : keyOf js x ≠ keyOf js r := hnd.1 r hr'
      simp only [groupRows, List.filter_cons]
      rw [if_neg (by simp [hx])]
      exact ih hnd.2 r hr'

/-- Under pairwise-distinct non-null keys, the self join matches each
row with itself in order. -/
theorem matchedPairsAux_self (js : List String) (arows : List Row)
    (hnd : arows.Pairwise (fun r s => keyOf js r ≠ keyOf js s))
    (hnn : ∀ r ∈ arows, nullKey js r = false) :
    ∀ seen rest, arows = seen ++ rest →
      matchedPairsAux js arows seen rest = rest.map (fun r => (r, r)) := by
  intro seen rest
  induction rest generalizing seen with
  | nil => intro _; rfl
  | cons r rest' ih =>
    intro harr
    have hr : r ∈ arows := by
      rw [harr]
      exact List.mem_append_right _ (List.mem_cons_self _ _)
    have hgroup := groupRows_self_singleton js arows hnd r hr
    have hseen : ∀ s ∈ seen, keyOf js s ≠ keyOf js r := by
      intro s hs
      have hsplit := List.pairwise_append.mp (harr ▸ hnd)
      exact hsplit.2.2 s hs r (List.mem_cons_self _ _)
    have hcnt : seen.countP (fun s => decide (keyOf js s = keyOf js r)) = 0 := by
      rw [List.countP_eq_zero]
      intro s hs
      simp [hseen s hs]
    rw [matchedPairsAux, hnn r hr, hcnt, hgroup]
    simp only [Bool.not_false, Bool.true_and, List.length_cons, List.length_nil,
      Nat.zero_lt_succ, decide_True, if_true, List.getD_cons_zero, List.map_cons]
    rw [ih (seen ++ [r]) (by rw [harr, List.append_cons])]

/-- Under pairwise-distinct non-null keys, no row of the self join is
left unmatched. -/
theorem unmatchedRowsAux_self (js : List String) (arows : List Row)
    (hnd : arows.Pairwise (fun r s => keyOf js r ≠ keyOf js s))
    (hnn : ∀ r ∈ arows, nullKey js r = false) :
    ∀ seen rest, arows = seen ++ rest →
      unmatchedRowsAux js arows seen rest = [] := by
  intro seen rest
  induction rest generalizing seen with
  | nil => intro _; rfl
  | cons r rest' ih =>
    intro harr
    have hr : r ∈ arows := by
      rw [harr]
      exact List.mem_append_right _ (List.mem_cons_self _ _)
    have hgroup := groupRows_self_singleton js arows hnd r hr
    have hseen : ∀ s ∈ seen, keyOf js s ≠ keyOf js r := by
      intro s hs
      have hsplit := List.pairwise_append.mp (harr ▸ hnd)
      exact hsplit.2.2 s hs r (List.mem_cons_self _ _)
    have hcnt : seen.countP (fun s => decide (keyOf js s = keyOf js r)) = 0 := by
      rw [List.countP_eq_zero]
      intro s hs
      simp [hseen s hs]
    rw [unmatchedRowsAux, hnn r hr, hcnt, hgroup]
    simp only [Bool.not_false, Bool.true_and, List.length_cons, List.length_nil,
      Nat.zero_lt_succ, decide_True, if_true]
    exact ih (seen ++ [r]) (by rw [harr, List.append_cons])

/-- A matched pair of identical rows produces no mismatch records. -/
theorem mismatchesForPair_self (js : List String) (absTol relTol : ℚ)
    (cs : Bool) (cols : List String) (r : Row)
    (h1 : 0 ≤ absTol) (h2 : 0 ≤ relTol) :
    mismatchesForPair js absTol relTol cs cols (r, r) = [] := by
  rw [mismatchesForPair, List.filterMap_eq_nil_iff]
  intro c _
  simp [valuesEqual_refl absTol relTol cs (rowLookup r c) h1 h2]

/-- C8 counterexample: a single null-keyed row has no duplicate join
keys, yet the self comparison reports it in only_in_a and matches
nothing. -/
theorem self_compare_null_key_counterexample :
    dsNull.rows.Pairwise
      (fun r s => keyOf cfgId.join_columns r ≠ keyOf cfgId.join_columns s)
    ∧ cfgId.compare_columns =
        commonColumns cfgId.case_sensitive dsNull.schema dsNull.schema
    ∧ (compareCore dsNull dsNull cfgId).only_in_a.length = 1
    ∧ (compareCore dsNull dsNull cfgId).matched_pairs.length = 0 := by
  refine ⟨?_, ?_, ?_, ?_⟩ <;> decide

/-- C8 (amended): self comparison with all common columns compared,
non-negative tolerances, no duplicate join keys, and additionally no
null join-key components, yields no mismatches, empty unique-row
counts, and a full match. -/
theorem self_compare_round_trip (A : Dataset) (cfg : Config)
    (hat : 0 ≤ cfg.absolute_tolerance) (hrt : 0 ≤ cfg.relative_tolerance)
    (hcols : cfg.compare_columns =
      commonColumns cfg.case_sensitive A.schema A.schema)
    (hnn : ∀ r ∈ A.rows, nullKey cfg.join_columns r = false)
    (hnd : A.rows.Pairwise
      (fun r s => keyOf cfg.join_columns r ≠ keyOf cfg.join_columns s)) :
    (compareCore A A cfg).mismatches = []
    ∧ (compareCore A A cfg).only_in_a.length = 0
    ∧ (compareCore A A cfg).only_in_b.length = 0
    ∧ (compareCore A A cfg).matched_pairs.length = A.rows.length := by
  have hmp : (compareCore A A cfg).matched_pairs =
      A.rows.map (fun r => (r, r)) :=
    matchedPairsAux_self cfg.join_columns A.rows hnd hnn [] A.rows rfl
  have hua : (compareCore A A cfg).only_in_a = [] :=
    unmatchedRowsAux_self cfg.join_columns A.rows hnd hnn [] A.rows rfl
  have hub : (compareCore A A cfg).only_in_b = [] :=
    unmatchedRowsAux_self cfg.join_columns A.rows hnd hnn [] A.rows rfl
  refine ⟨?_, by rw [hua]; rfl, by rw [hub]; rfl, by rw [hmp]; simp⟩
  show (matchedPairs cfg.join_columns A.rows A.rows).flatMap
      (mismatchesForPair cfg.join_columns cfg.absolute_tolerance
        cfg.relative_tolerance cfg.case_sensitive
        (effectiveCompareCols cfg
          (commonColumns cfg.case_sensitive A.schema A.schema))) = []
  rw [show matchedPairs cfg.join_columns A.rows A.rows =
      A.rows.map (fun r => (r, r)) from hmp]
  rw [List.flatMap_eq_nil_iff]
  intro p hp
  rcases List.mem_map.mp hp with ⟨r, _, rfl⟩
  exact mismatchesForPair_self _ _ _ _ _ r hat hrt

/-- If the compared values agree, no ecols list produces a record for
that column. -/
theorem countP_mismatch_zero_of_equal (js : List String) (absTol relTol : ℚ)
    (cs : Bool) (p : Row × Row) (c : String)
    (h0 : valuesEqual absTol relTol cs (rowLookup p.1 c) (rowLookup p.2 c) = true) :
    ∀ ecols, (mismatchesForPair js absTol relTol cs ecols p).countP
      (fun m => m.column == c) = 0 := by
  intro ecols
  induction ecols with
  | nil => rfl
  | cons c0 rest ih =>
    simp only [mismatchesForPair, List.filterMap_cons] at ih ⊢
    by_cases hcc : c0 = c
    · subst hcc
      rw [if_pos h0]
      exact ih
    · cases h1 : valuesEqual absTol relTol cs (rowLookup p.1 c0) (rowLookup p.2 c0) with
      | true =>
        rw [if_pos rfl]
        exact ih
      | false =>
        rw [if_neg (by simp)]
        simpa [List.countP_cons, hcc] using ih

/-- If the compared values disagree, a column present in ecols yields at
least one record. -/
theorem countP_mismatch_ne_zero_of_not_equal (js : List String)
    (absTol relTol : ℚ) (cs : Bool) (p : Row × Row) (c : String)
    (h0 : valuesEqual absTol relTol cs (rowLookup p.1 c) (rowLookup p.2 c) = false) :
    ∀ ecols, c ∈ ecols →
      (mismatchesForPair js absTol relTol cs ecols p).countP
        (fun m => m.column == c) ≠ 0 := by
  intro ecols
  induction ecols with
  | nil => intro h; cases h
  | cons c0 rest ih =>
    intro hc
    simp only [mismatchesForPair, List.filterMap_cons] at ih ⊢
    by_cases hcc : c0 = c
    · subst hcc
      rw [if_neg (by simp [h0])]
      simp [List.countP_cons]
    · rcases List.mem_cons.mp hc with rfl | hc'
      · exact absurd rfl hcc
      · cases h1 : valuesEqual absTol relTol cs (rowLookup p.1 c0) (rowLookup p.2 c0) with
        | true =>
          rw [if_pos rfl]
          exact ih hc'
        | false =>
          rw [if_neg (by simp)]
          simpa [List.countP_cons, hcc] using ih hc'

/-- A compared column has zero mismatch records exactly when its two
values agree under the tolerance rules. -/
theorem countP_mismatch_zero_iff (js : List String) (absTol relTol : ℚ)
    (cs : Bool) (p : Row × Row) (c : String) (ecols : List String)
    (hc : c ∈ ecols) :
    ((mismatchesForPair js absTol relTol cs ecols p).countP
      (fun m => m.column == c) = 0) ↔
    valuesEqual absTol relTol cs (rowLookup p.1 c) (rowLookup p.2 c) = true := by
  constructor
  · intro h
    cases h0 : valuesEqual absTol relTol cs (rowLookup p.1 c) (rowLookup p.2 c) with
    | true => rfl
    | false =>
      exact absurd h
        (countP_mismatch_ne_zero_of_not_equal js absTol relTol cs p c h0 ecols hc)
  · intro h0
    exact countP_mismatch_zero_of_equal js absTol relTol cs p c h0 ecols

/-- With relative tolerance 0, two numeric values agree exactly when
their difference is within the absolute tolerance. -/
theorem valuesEqual_zero_rel_iff (tol : ℚ) (cs : Bool) (a b : Value)
    (ha : isNumeric a = true) (hb : isNumeric b = true) :
    valuesEqual tol 0 cs a b = true ↔ |numVal a - numVal b| ≤ tol := by
  cases a <;> cases b <;> simp_all [valuesEqual, isNumeric, numVal]

/-- C4 counterexample: with configured absolute tolerance 0 and relative
tolerance 1, the claimed formula accepts 10 against 15, but the code
path (which hardcodes rel_tol to 0) records a mismatch. -/
theorem relative_tolerance_counterexample :
    (|numVal (Value.floatV 10) - numVal (Value.floatV 15)| ≤
      cfgRel.absolute_tolerance + cfgRel.relative_tolerance *
        max |numVal (Value.floatV 10)| |numVal (Value.floatV 15)|)
    ∧ mismatchCountCol (run_comparison_in_thread dfBase dfCmp ["id"] ["val"]
        cfgRel.absolute_tolerance cfgRel.case_sensitive).mismatches "val" = 1 := by
  constructor
  · show |numVal (Value.floatV 10) - numVal (Value.floatV 15)| ≤
      0 + 1 * max |numVal (Value.floatV 10)| |numVal (Value.floatV 15)|
    norm_num [numVal]
  · show mismatchCountCol (run_comparison_in_thread dfBase dfCmp ["id"] ["val"]
      0 true).mismatches "val" = 1
    have hveq : valuesEqual 0 0 true (Value.floatV 10) (Value.floatV 15) = false := by
      cases hv : valuesEqual 0 0 true (Value.floatV 10) (Value.floatV 15) with
      | false => rfl
      | true =>
        have h := (valuesEqual_zero_rel_iff 0 true (Value.floatV 10)
          (Value.floatV 15) rfl rfl).mp hv
        norm_num [numVal] at h
    have hmm : (run_comparison_in_thread dfBase dfCmp ["id"] ["val"]
        0 true).mismatches =
        (matchedPairs ["id"] dfBase.rows dfCmp.rows).flatMap
          (mismatchesForPair ["id"] 0 0 true
            (effectiveCompareCols ⟨["id"], ["val"], 0, 0, true⟩
              (commonColumns true dfBase.schema dfCmp.schema))) := rfl
    have hcols : effectiveCompareCols ⟨["id"], ["val"], 0, 0, true⟩
        (commonColumns true dfBase.schema dfCmp.schema) = ["val"] := by decide
    have hpairs : matchedPairs ["id"] dfBase.rows dfCmp.rows =
        [(rowA1, rowC15)] := by decide
    have hlook1 : rowLookup rowA1 "val" = Value.floatV 10 := by decide
    have hlook2 : rowLookup rowC15 "val" = Value.floatV 15 := by decide
    rw [hmm, hcols, hpairs]
    simp [mismatchCountCol, mismatchesForPair, hlook1, hlook2, hveq,
      List.countP_cons]

/-- C4 (amended): the Deepseek caller passes the configured tolerance as
abs_tol and hardcodes rel_tol to 0, so a numeric compare-column pair
counts as a match exactly when |a - b| <= absolute_tolerance. -/
theorem deepseek_tolerance_amended (df1 df2 : Dataset) (js cols : List String)
    (tol : ℚ) (cs : Bool) (p : Row × Row) (c : String) (ecols : List String)
    (hc : c ∈ ecols)
    (ha : isNumeric (rowLookup p.1 c) = true)
    (hb : isNumeric (rowLookup p.2 c) = true) :
    run_comparison_in_thread df1 df2 js cols tol cs =
      compareCore df1 df2 ⟨js, cols, tol, 0, cs⟩
    ∧ ((mismatchesForPair js tol 0 cs ecols p).countP
        (fun m => m.column == c) = 0 ↔
        |numVal (rowLookup p.1 c) - numVal (rowLookup p.2 c)| ≤ tol) :=
  ⟨rfl, (countP_mismatch_zero_iff js tol 0 cs p c ecols hc).trans
    (valuesEqual_zero_rel_iff tol cs _ _ ha hb)⟩

/-- C4 (amended) witness: 10 against 15 with absolute tolerance 7. -/
theorem deepseek_tolerance_amended_witness :
    run_comparison_in_thread dfBase dfCmp ["id"] ["val"] 7 true =
      compareCore dfBase dfCmp ⟨["id"], ["val"], 7, 0, true⟩
    ∧ ((mismatchesForPair ["id"] 7 0 true ["val"] (rowA1, rowC15)).countP
        (fun m => m.column == "val") = 0 ↔
        |numVal (rowLookup rowA1 "val") - numVal (rowLookup rowC15 "val")| ≤ 7) :=
  deepseek_tolerance_amended dfBase dfCmp ["id"] ["val"] 7 true (rowA1, rowC15)
    "val" ["val"] (by decide) (by decide) (by decide)

/-- C8 (amended) witness: `dsTwo` against itself round-trips. -/
theorem self_compare_round_trip_witness :
    (compareCore dsTwo dsTwo cfgSelf).mismatches = []
    ∧ (compareCore dsTwo dsTwo cfgSelf).only_in_a.length = 0
    ∧ (compareCore dsTwo dsTwo cfgSelf).only_in_b.length = 0
    ∧ (compareCore dsTwo dsTwo cfgSelf).matched_pairs.length = dsTwo.rows.length :=
  self_compare_round_trip dsTwo cfgSelf (le_refl 0) (le_refl 0) (by decide)
    (by decide) (by decide)

end DataCompy
